import Mathlib

/-!
Shallow embedding of the offline-first inventory core of easy-count-aid:
the IndexedDB-backed local store (src/lib/indexedDb.ts), the inventory
mutation service (src/hooks/useInventory.ts), the bidirectional sync
engine (src/lib/syncService.ts) and the stock webhook edge function
(supabase/functions/stock-webhook/index.ts).

Modelling conventions.
Asynchronous functions become pure state-passing functions.  External
collaborators (the Supabase remote store, JSON.parse, parseInt, HMAC,
crypto.randomUUID, the clock) are passed in as explicit oracle
parameters; remote calls are additionally recorded as values of an
effect type so that theorems can talk about which remote writes were
attempted.  The keyed object stores of IndexedDB become lists of
records; db.put is an upsert keyed by id (putById).  JavaScript string
or undefined values become Option String; JavaScript numbers that the
code treats as integers become Int.
-/

/-- Item or movement condition enumeration. -/
inductive Cond
  | new
  | good
  | damaged
  | broken
deriving DecidableEq, Repr

/-- Movement type: add or remove. -/
inductive MovementType
  | add
  | remove
deriving DecidableEq, Repr

/-- Entry method provenance tag on a movement. -/
inductive EntryMethod
  | manual
  | ai_assisted
deriving DecidableEq, Repr

/-- InventoryItem record (interface InventoryItem, src/lib/indexedDb.ts). -/
structure InventoryItem where
  id : String
  name : String
  sku : String
  current_quantity : Int
  reference_image_url : Option String := none
  category_id : Option String := none
  condition : Option Cond := none
  photos : Option (List String) := none
  low_stock_threshold : Option Int := none
  created_at : String
  updated_at : String
deriving DecidableEq, Repr

/-- DeviceUser record (interface DeviceUser, src/lib/indexedDb.ts). -/
structure DeviceUser where
  id : String
  name : String
  created_at : String
deriving DecidableEq, Repr

/-- StockMovement record (interface StockMovement, src/lib/indexedDb.ts).
The user_id field is written by useInventory.ts alongside device_user_id
and is carried here as well. -/
structure StockMovement where
  id : String
  item_id : String
  device_user_id : Option String := none
  user_id : Option String := none
  movement_type : MovementType
  quantity : Int
  entry_method : EntryMethod
  ai_confidence : Option Int := none
  notes : Option String := none
  condition : Option Cond := none
  created_at : String
deriving DecidableEq, Repr

/-- Queue action: insert, update or delete. -/
inductive QueueAction
  | insert
  | update
  | delete
deriving DecidableEq, Repr

/-- The record_data payload of a sync-queue entry.  It is typed any in
the source; at runtime it is an item, a movement, a device user, a bare
id object (deleteItem), or defensively a raw string (the
double-serialization case handled in syncService.ts). -/
inductive RecordData
  | item (i : InventoryItem)
  | movement (m : StockMovement)
  | user (u : DeviceUser)
  | idOnly (id : String)
  | str (s : String)
deriving DecidableEq, Repr

/-- SyncQueueItem record (interface SyncQueueItem, src/lib/indexedDb.ts). -/
structure SyncQueueItem where
  id : String
  action : QueueAction
  table_name : String
  record_data : RecordData
  synced : Bool
  created_at : String
  synced_at : Option String := none
deriving DecidableEq, Repr

/-- The four keyed object stores of the local IndexedDB database
(inventory-db, src/lib/indexedDb.ts). -/
structure LocalStore where
  items : List InventoryItem
  device_users : List DeviceUser
  movements : List StockMovement
  sync_queue : List SyncQueueItem
deriving DecidableEq, Repr

/-- db.put on a keyed object store: replace the record with the same key
if present, otherwise append. -/
def putById (getId : α → String) (x : α) : List α → List α
  | [] => [x]
  | y :: ys => if getId y = getId x then x :: ys else y :: putById getId x ys

/-- db.get on a keyed object store. -/
def findById (getId : α → String) (k : String) (l : List α) : Option α :=
  l.find? fun y => decide (getId y = k)

/-- db.get(inventory_items, id). -/
def getItemStore (st : LocalStore) (id : String) : Option InventoryItem :=
  findById (fun i => i.id) id st.items

/-- db.put(inventory_items, item). -/
def saveItemStore (st : LocalStore) (i : InventoryItem) : LocalStore :=
  { st with items := putById (fun j => j.id) i st.items }

/-- db.put(device_users, user). -/
def saveDeviceUserStore (st : LocalStore) (u : DeviceUser) : LocalStore :=
  { st with device_users := putById (fun v => v.id) u st.device_users }

/-- db.get(stock_movements, id). -/
def getMovementStore (st : LocalStore) (id : String) : Option StockMovement :=
  findById (fun m => m.id) id st.movements

/-- db.put(stock_movements, movement). -/
def saveMovementStore (st : LocalStore) (m : StockMovement) : LocalStore :=
  { st with movements := putById (fun n => n.id) m st.movements }

/-- getUnsyncedItems: getAll on the queue filtered to unsynced entries. -/
def getUnsynced (q : List SyncQueueItem) : List SyncQueueItem :=
  q.filter fun e => !e.synced

/-- markAsSynced(id): look up the queue entry and put it back with
synced set and a synced_at stamp.  On a keyed store with unique ids
this is the same as mapping over the list. -/
def markAsSyncedQueue (now : String) (id : String)
    (q : List SyncQueueItem) : List SyncQueueItem :=
  q.map fun e => if e.id = id then { e with synced := true, synced_at := some now } else e

/-- clearSyncedItems: delete every queue entry already marked synced. -/
def clearSyncedStore (st : LocalStore) : LocalStore :=
  { st with sync_queue := st.sync_queue.filter fun e => !e.synced }

theorem putById_fresh (getId : α → String) (x : α) (l : List α)
    (h : ∀ y ∈ l, getId y ≠ getId x) : putById getId x l = l ++ [x] := by
  induction l with
  | nil => rfl
  | cons y ys ih =>
    have hy : getId y ≠ getId x := h y (List.mem_cons_self y ys)
    simp only [putById, if_neg hy, List.cons_append]
    exact congrArg (y :: ·) (ih fun z hz => h z (List.mem_cons_of_mem y hz))

theorem findById_putById (getId : α → String) (x : α) (l : List α) :
    findById getId (getId x) (putById getId x l) = some x := by
  induction l with
  | nil => simp [findById, putById, List.find?]
  | cons y ys ih =>
    by_cases hy : getId y = getId x
    · simp [findById, putById, hy, List.find?]
    · simp only [putById, if_neg hy]
      simpa [findById, List.find?, hy] using ih

theorem findById_key (getId : α → String) (k : String) (l : List α) (a : α)
    (h : findById getId k l = some a) : getId a = k := by
  have := List.find?_some h
  simpa using this

/-- Outcome of one Supabase client call.  ok and err mirror the
destructured error field of the response; threw models a thrown
exception (caught by the surrounding try/catch). -/
inductive CallOutcome
  | ok
  | err (code : String) (message : String)
  | threw
deriving DecidableEq, Repr

/-- A remote (Supabase) write attempted by the client code, carrying
the payload it was given. -/
inductive RemoteOp
  | upsertItem (d : RecordData)
  | deleteItemById (id : Option String)
  | upsertMovement (d : RecordData)
  | upsertUser (d : RecordData)
deriving DecidableEq, Repr

/-- The ambient environment of one mutation-service call: the
crypto.randomUUID supply (indexed by how many ids were drawn so far),
the clock (Date toISOString) and the getOnlineStatus flag. -/
structure MutCtx where
  uuid : Nat → String
  now : String
  online : Bool

/-- JavaScript expression x || null on an optional string: the empty
string is falsy and collapses to null. -/
def jsOrNull : Option String → Option String
  | some s => if s = "" then none else some s
  | none => none

/-- Build the queue entry that addToSyncQueue (src/lib/indexedDb.ts)
persists: fresh uuid, synced false, created_at stamp. -/
def mkQueueEntry (id : String) (a : QueueAction) (t : String)
    (rd : RecordData) (now : String) : SyncQueueItem :=
  { id := id, action := a, table_name := t, record_data := rd,
    synced := false, created_at := now, synced_at := none }

/-- Run a sequence of addToSyncQueue calls, drawing one uuid per call. -/
def enqueueList (uuid : Nat → String) (now : String) :
    Nat → List (QueueAction × String × RecordData) → List SyncQueueItem →
    Nat × List SyncQueueItem
  | g, [], q => (g, q)
  | g, (a, t, rd) :: rest, q =>
      enqueueList uuid now (g + 1) rest
        (putById (fun e => e.id) (mkQueueEntry (uuid g) a t rd now) q)

/-- Result of a mutation-service call: the local store after the call,
the next uuid index, the returned value, and the immediate remote
writes that were attempted. -/
structure MutResult (α : Type) where
  store : LocalStore
  gen : Nat
  ret : α
  remoteOps : List RemoteOp
deriving Repr

/-- addItem (useInventory.ts): the argument record without id and
timestamps. -/
structure ItemDraft where
  name : String
  sku : String
  current_quantity : Int
  reference_image_url : Option String := none
  category_id : Option String := none
  condition : Option Cond := none
  photos : Option (List String) := none
  low_stock_threshold : Option Int := none
deriving DecidableEq, Repr

/-- addItem: assign fresh id and timestamps, save locally, enqueue an
insert, return the created record.  The trailing fire-and-forget
triggerSync call is outside this state transition. -/
def addItem (ctx : MutCtx) (g : Nat) (store : LocalStore)
    (draft : ItemDraft) : MutResult InventoryItem :=
  let newItem : InventoryItem :=
    { id := ctx.uuid g, name := draft.name, sku := draft.sku,
      current_quantity := draft.current_quantity,
      reference_image_url := draft.reference_image_url,
      category_id := draft.category_id, condition := draft.condition,
      photos := draft.photos,
      low_stock_threshold := draft.low_stock_threshold,
      created_at := ctx.now, updated_at := ctx.now }
  let q1 := putById (fun e => e.id)
    (mkQueueEntry (ctx.uuid (g + 1)) .insert "inventory_items" (.item newItem) ctx.now)
    store.sync_queue
  ⟨{ store with
      items := putById (fun i => i.id) newItem store.items,
      sync_queue := q1 }, g + 2, newItem, []⟩

/-- updateItem partial-update argument: one optional slot per mutable
field of the spread expression. -/
structure ItemUpdates where
  name : Option String := none
  sku : Option String := none
  current_quantity : Option Int := none
  reference_image_url : Option (Option String) := none
  category_id : Option (Option String) := none
  condition : Option (Option Cond) := none
  photos : Option (Option (List String)) := none
  low_stock_threshold : Option (Option Int) := none
deriving Repr

/-- The spread merge in updateItem, before the updated_at stamp. -/
def applyUpdates (ex : InventoryItem) (u : ItemUpdates) : InventoryItem :=
  { ex with
    name := u.name.getD ex.name,
    sku := u.sku.getD ex.sku,
    current_quantity := u.current_quantity.getD ex.current_quantity,
    reference_image_url := u.reference_image_url.getD ex.reference_image_url,
    category_id := u.category_id.getD ex.category_id,
    condition := u.condition.getD ex.condition,
    photos := u.photos.getD ex.photos,
    low_stock_threshold := u.low_stock_threshold.getD ex.low_stock_threshold }

/-- updateItem: read current, merge, stamp updated_at, save, enqueue an
update; silently no-op when the id is not found. -/
def updateItem (ctx : MutCtx) (g : Nat) (store : LocalStore)
    (id : String) (u : ItemUpdates) : MutResult (Option InventoryItem) :=
  match getItemStore store id with
  | none => ⟨store, g, none, []⟩
  | some existing =>
    let updated := { applyUpdates existing u with updated_at := ctx.now }
    let q1 := putById (fun e => e.id)
      (mkQueueEntry (ctx.uuid g) .update "inventory_items" (.item updated) ctx.now)
      store.sync_queue
    ⟨{ store with
        items := putById (fun i => i.id) updated store.items,
        sync_queue := q1 }, g + 1, some updated, []⟩

/-- The row the immediate online path upserts into the remote
stock_movements table: device_user_id is hardcoded null (FK defence),
user_id is userId || null. -/
def immediateMovementRow (m : StockMovement) (userId : Option String) :
    StockMovement :=
  { m with device_user_id := none, user_id := jsOrNull userId }

/-- The try block of the online immediate-write path of updateQuantity:
upsert the movement, enqueue it if the call returned an error, then
upsert the item, enqueue it if that returned an error; a thrown
exception lands in the catch which enqueues both. Returns the remote
ops attempted and the queue adds to perform, in order. -/
def updateQuantityImmediate (remote : RemoteOp → CallOutcome)
    (movement : StockMovement) (updated : InventoryItem)
    (userId : Option String) :
    List RemoteOp × List (QueueAction × String × RecordData) :=
  let mvAdd : QueueAction × String × RecordData :=
    (.insert, "stock_movements", .movement movement)
  let itemAdd : QueueAction × String × RecordData :=
    (.update, "inventory_items", .item updated)
  let op1 := RemoteOp.upsertMovement (.movement (immediateMovementRow movement userId))
  let op2 := RemoteOp.upsertItem (.item updated)
  let afterMovement :
      List (QueueAction × String × RecordData) →
      List RemoteOp × List (QueueAction × String × RecordData) :=
    fun mvAdds =>
      match remote op2 with
      | .threw => ([op1, op2], mvAdds ++ [mvAdd, itemAdd])
      | .err _ _ => ([op1, op2], mvAdds ++ [itemAdd])
      | .ok => ([op1, op2], mvAdds)
  match remote op1 with
  | .threw => ([op1], [mvAdd, itemAdd])
  | .err _ _ => afterMovement [mvAdd]
  | .ok => afterMovement []

/-- updateQuantity (useInventory.ts): no-op when the id is missing;
otherwise compute the new quantity with no floor at zero, save the
updated item, enqueue an item update unconditionally, save the
movement, then either attempt the immediate remote writes (online)
or enqueue movement insert and item update (offline).  The local
writes touch disjoint stores, so the final store is assembled
field-wise. -/
def updateQuantity (remote : RemoteOp → CallOutcome) (ctx : MutCtx)
    (g : Nat) (store : LocalStore) (id : String) (quantity : Int)
    (type : MovementType) (userId : Option String)
    (entryMethod : EntryMethod) (aiConfidence : Option Int)
    (notes : Option String) (condition : Option Cond) :
    MutResult (Option InventoryItem) :=
  match getItemStore store id with
  | none => ⟨store, g, none, []⟩
  | some existing =>
    let newQuantity :=
      if type = .add then existing.current_quantity + quantity
      else existing.current_quantity - quantity
    let updated := { existing with
                     current_quantity := newQuantity,
                     updated_at := ctx.now }
    let q1 := putById (fun e => e.id)
      (mkQueueEntry (ctx.uuid g) .update "inventory_items" (.item updated) ctx.now)
      store.sync_queue
    let movement : StockMovement :=
      { id := ctx.uuid (g + 1), item_id := id, device_user_id := userId,
        user_id := userId, movement_type := type, quantity := quantity,
        entry_method := entryMethod, ai_confidence := aiConfidence,
        notes := notes, condition := condition, created_at := ctx.now }
    let stage :=
      if ctx.online then updateQuantityImmediate remote movement updated userId
      else ([], [(.insert, "stock_movements", .movement movement),
                 (.update, "inventory_items", .item updated)])
    let final := enqueueList ctx.uuid ctx.now (g + 2) stage.2 q1
    ⟨{ items := putById (fun i => i.id) updated store.items,
       device_users := store.device_users,
       movements := putById (fun m => m.id) movement store.movements,
       sync_queue := final.2 }, final.1, some updated, stage.1⟩

/-- addStockMovement (useInventory.ts): record a movement without
touching the item quantity; online, attempt an immediate remote upsert
of the row with device_user_id null, enqueueing the movement if the
call errs or throws; offline, enqueue unconditionally. -/
def addStockMovement (remote : RemoteOp → CallOutcome) (ctx : MutCtx)
    (g : Nat) (store : LocalStore) (itemId : String) (quantity : Int)
    (type : MovementType) (userId : Option String)
    (entryMethod : EntryMethod) (aiConfidence : Option Int)
    (notes : Option String) (condition : Option Cond) :
    MutResult StockMovement :=
  let movement : StockMovement :=
    { id := ctx.uuid g, item_id := itemId, device_user_id := userId,
      user_id := userId, movement_type := type, quantity := quantity,
      entry_method := entryMethod, ai_confidence := aiConfidence,
      notes := notes, condition := condition, created_at := ctx.now }
  let mvAdd : QueueAction × String × RecordData :=
    (.insert, "stock_movements", .movement movement)
  let op := RemoteOp.upsertMovement (.movement (immediateMovementRow movement userId))
  let stage : List RemoteOp × List (QueueAction × String × RecordData) :=
    if ctx.online then
      match remote op with
      | .ok => ([op], [])
      | .err _ _ => ([op], [mvAdd])
      | .threw => ([op], [mvAdd])
    else ([], [mvAdd])
  let final := enqueueList ctx.uuid ctx.now (g + 1) stage.2 store.sync_queue
  ⟨{ store with
      movements := putById (fun m => m.id) movement store.movements,
      sync_queue := final.2 }, final.1, movement, stage.1⟩

/-- deleteItem (useInventory.ts): delete locally and enqueue a delete
carrying only the id. -/
def deleteItemMut (ctx : MutCtx) (g : Nat) (store : LocalStore)
    (id : String) : MutResult Unit :=
  let q1 := putById (fun e => e.id)
    (mkQueueEntry (ctx.uuid g) .delete "inventory_items" (.idOnly id) ctx.now)
    store.sync_queue
  ⟨{ store with
      items := store.items.filter fun i => !decide (i.id = id),
      sync_queue := q1 }, g + 1, (), []⟩

/-- addUser (useInventory.ts, useDeviceUsers): create a device user
with a fresh id, save locally, enqueue an insert. -/
def addUser (ctx : MutCtx) (g : Nat) (store : LocalStore)
    (name : String) : MutResult DeviceUser :=
  let newUser : DeviceUser := { id := ctx.uuid g, name := name, created_at := ctx.now }
  let q1 := putById (fun e => e.id)
    (mkQueueEntry (ctx.uuid (g + 1)) .insert "device_users" (.user newUser) ctx.now)
    store.sync_queue
  ⟨{ store with
      device_users := putById (fun u => u.id) newUser store.device_users,
      sync_queue := q1 }, g + 2, newUser, []⟩

/-- JavaScript String.prototype.includes, on the character lists. -/
def strIncludes (hay pat : String) : Bool :=
  go hay.toList
where
  go : List Char → Bool
    | [] => pat.toList.isEmpty
    | c :: rest => pat.toList.isPrefixOf (c :: rest) || go rest

/-- The defensive handling at the top of each table branch of
syncLocalChanges: a string payload is run through JSON.parse; a parse
failure is logged and the string value is kept. -/
def resolveRecordData (parse : String → Option RecordData) :
    RecordData → RecordData
  | .str s =>
    match parse s with
    | some d => d
    | none => .str s
  | d => d

/-- The id field read off recordData by the delete branch; a raw string
payload has no id field (undefined). -/
def recordDataId : RecordData → Option String
  | .item i => some i.id
  | .movement m => some m.id
  | .user u => some u.id
  | .idOnly id => some id
  | .str _ => none

/-- delete cleanedData.device_user_id: removes the field from a
movement payload and leaves every other payload unchanged. -/
def stripDeviceUserId : RecordData → RecordData
  | .movement m => .movement { m with device_user_id := none }
  | d => d

/-- Result of pushing a single queue entry: the remote writes that were
attempted, in order, and whether the entry reached markAsSynced. -/
structure EntryResult where
  ops : List RemoteOp
  synced : Bool
deriving DecidableEq, Repr

/-- The body of the per-entry loop of syncLocalChanges
(src/lib/syncService.ts).  Any remote error not recovered by the
foreign-key downgrade retry is thrown and caught by the per-entry
catch, leaving the entry unsynced; every branch that completes without
throwing falls through to markAsSynced, including the branches that
dispatch nothing (movement update/delete, device-user delete, unknown
table). -/
def syncEntry (remote : RemoteOp → CallOutcome)
    (parse : String → Option RecordData) (e : SyncQueueItem) : EntryResult :=
  if e.table_name = "inventory_items" then
    let rd := resolveRecordData parse e.record_data
    match e.action with
    | .insert | .update =>
      let op := RemoteOp.upsertItem rd
      match remote op with
      | .ok => ⟨[op], true⟩
      | _ => ⟨[op], false⟩
    | .delete =>
      let op := RemoteOp.deleteItemById (recordDataId rd)
      match remote op with
      | .ok => ⟨[op], true⟩
      | _ => ⟨[op], false⟩
  else if e.table_name = "stock_movements" then
    let rd := resolveRecordData parse e.record_data
    match e.action with
    | .insert =>
      let op := RemoteOp.upsertMovement rd
      match remote op with
      | .ok => ⟨[op], true⟩
      | .threw => ⟨[op], false⟩
      | .err code msg =>
        if code = "23503" ∧ strIncludes msg "device_user_id" then
          let op2 := RemoteOp.upsertMovement (stripDeviceUserId rd)
          match remote op2 with
          | .ok => ⟨[op, op2], true⟩
          | _ => ⟨[op, op2], false⟩
        else ⟨[op], false⟩
    | _ => ⟨[], true⟩
  else if e.table_name = "device_users" then
    let rd := resolveRecordData parse e.record_data
    match e.action with
    | .insert | .update =>
      let op := RemoteOp.upsertUser rd
      match remote op with
      | .ok => ⟨[op], true⟩
      | _ => ⟨[op], false⟩
    | .delete => ⟨[], true⟩
  else ⟨[], true⟩

/-- syncLocalChanges: read the unsynced entries once, then process each
in order, marking an entry synced in the store exactly when its
processing completed without throwing.  Also returns every remote write
attempted during the pass. -/
def syncLocalChanges (remote : RemoteOp → CallOutcome)
    (parse : String → Option RecordData) (now : String)
    (store : LocalStore) : LocalStore × List RemoteOp :=
  (getUnsynced store.sync_queue).foldl
    (fun acc e =>
      let r := syncEntry remote parse e
      (if r.synced then
        { acc.1 with sync_queue := markAsSyncedQueue now e.id acc.1.sync_queue }
       else acc.1, acc.2 ++ r.ops))
    (store, [])

/-- The three remote collections fetched by fetchFromServer; none
models a fetch error for that collection (logged and skipped). -/
structure PullData where
  items : Option (List InventoryItem)
  users : Option (List DeviceUser)
  movements : Option (List StockMovement)

/-- fetchFromServer: upsert every fetched record into the local store,
collection by collection, skipping a collection whose fetch errored. -/
def fetchFromServer (pd : PullData) (st : LocalStore) : LocalStore :=
  let st1 := match pd.items with
    | none => st
    | some l => l.foldl (fun s i => saveItemStore s i) st
  let st2 := match pd.users with
    | none => st1
    | some l => l.foldl (fun s u => saveDeviceUserStore s u) st1
  match pd.movements with
  | none => st2
  | some l => l.foldl (fun s m => saveMovementStore s m) st2

/-- The module-level flags of syncService.ts. -/
structure SyncState where
  isOnline : Bool
  syncInProgress : Bool
deriving DecidableEq, Repr

/-- triggerSync: drop the trigger when offline or when a sync pass is
already running; otherwise set the guard, push local changes, pull the
remote collections, garbage-collect synced queue entries, and clear
the guard. -/
def triggerSync (remote : RemoteOp → CallOutcome)
    (parse : String → Option RecordData) (now : String) (pd : PullData)
    (st : SyncState) (store : LocalStore) :
    SyncState × LocalStore × List RemoteOp :=
  if st.isOnline = false ∨ st.syncInProgress = true then (st, store, [])
  else
    let pushed := syncLocalChanges remote parse now store
    let pulled := fetchFromServer pd pushed.1
    let cleaned := clearSyncedStore pulled
    (⟨st.isOnline, false⟩, cleaned, pushed.2)

/-- The webhook payload as parsed from the request body.  The condition
key may be present in the JSON of a request; the TypeScript
WebhookPayload interface does not declare it and the handler never
reads it, so it is carried here only so that statements can refer to
the value a caller supplied. -/
structure WebhookPayload where
  action : Option String := none
  item_name : Option String := none
  sku : Option String := none
  amount : Option Int := none
  condition : Option String := none
deriving DecidableEq, Repr

/-- An inventory_items row as returned by the remote store to the
webhook handler (the columns the handler reads or returns). -/
structure FoundItem where
  id : String
  name : String
  sku : String
  current_quantity : Int
deriving DecidableEq, Repr

/-- The literal insert object for a new item created via webhook. -/
structure NewItemRow where
  name : String
  sku : String
  current_quantity : Int
  category_id : String
  condition : String
deriving DecidableEq, Repr

/-- The literal insert object for a stock movement recorded via
webhook.  The condition slot records whether the object carries a
condition key; both source literals omit it, so it is none on every
path and the stock_movements.condition column, which has no database
default, is stored as NULL. -/
structure MovementInsertRow where
  item_id : String
  movement_type : String
  quantity : Int
  entry_method : String
  notes : String
  condition : Option String := none
deriving DecidableEq, Repr

/-- A mutating remote write attempted by the webhook handler. -/
inductive WhEffect
  | insertItem (row : NewItemRow)
  | updateItem (id : String) (new_quantity : Int) (updated_at : String)
  | insertMovement (row : MovementInsertRow)
deriving DecidableEq, Repr

/-- The JSON body of a webhook response, one optional slot per key any
response path may emit, plus the HTTP status. -/
structure WebhookResponse where
  httpStatus : Nat
  status : Option String := none
  error : Option String := none
  action : Option String := none
  item : Option FoundItem := none
  previous_quantity : Option Int := none
  new_quantity : Option Int := none
  change : Option String := none
  message : Option String := none
  requires_confirmation : Option Bool := none
deriving DecidableEq, Repr

/-- Result of verifyWebhookSignature. -/
structure VerifyResult where
  valid : Bool
  error : Option String := none
deriving DecidableEq, Repr

/-- The well-known Uncategorized category id used by webhook creation. -/
def uncategorizedId : String := "00000000-0000-0000-0000-000000000000"

/-- JavaScript String.prototype.toLowerCase (the ASCII range relevant
to the name comparison), character by character. -/
def jsToLowerCase (s : String) : String := String.mk (s.data.map Char.toLower)

/-- verifyWebhookSignature (stock-webhook/index.ts): reject missing or
empty headers, reject a timestamp that fails parseInt or lies more than
five minutes from now, then compare the supplied signature with
HMAC-SHA256 of timestamp.body under the shared secret.  hmac is the
digest oracle, parseIntJs the parseInt oracle (none models NaN), now
the Date.now clock in unix milliseconds. -/
def verifyWebhookSignature (hmac : String → String → String)
    (parseIntJs : String → Option Int) (now : Int) (body : String)
    (signature timestamp : Option String) (secret : String) : VerifyResult :=
  match signature, timestamp with
  | some sig, some ts =>
    if sig = "" ∨ ts = "" then
      ⟨false, some "Missing signature or timestamp headers"⟩
    else
      match parseIntJs ts with
      | none => ⟨false, some "Timestamp expired or invalid"⟩
      | some tms =>
        if 5 * 60 * 1000 < (now - tms).natAbs then
          ⟨false, some "Timestamp expired or invalid"⟩
        else if sig = hmac (ts ++ "." ++ body) secret then ⟨true, none⟩
        else ⟨false, some "Invalid signature"⟩
  | _, _ => ⟨false, some "Missing signature or timestamp headers"⟩

/-- The environment of one webhook request: the configured secret, the
digest, parse and clock oracles. -/
structure WebhookEnv where
  secret : Option String
  hmac : String → String → String
  parseIntJs : String → Option Int
  now : Int
  nowIso : String
  parsePayload : String → Option WebhookPayload

/-- The remote store as seen by the webhook handler; Except.error
models a returned database error. -/
structure WebhookDb where
  findBySku : String → Except Unit (Option FoundItem)
  insertItem : NewItemRow → Except Unit FoundItem
  updateItem : String → Int → String → Except Unit FoundItem

/-- A webhook request: raw body and the two verification headers. -/
structure WebhookRequest where
  body : String
  signature : Option String := none
  timestamp : Option String := none

/-- The Deno.serve request handler of stock-webhook/index.ts, returning
the response and the list of mutating remote writes it attempted, in
order.  Effects are recorded also when the write itself returns an
error (the attempt happened); reads (findBySku) are not effects. -/
def stockWebhookHandler (env : WebhookEnv) (dbi : WebhookDb)
    (req : WebhookRequest) : WebhookResponse × List WhEffect :=
  match env.secret with
  | none =>
    ({ httpStatus := 503, error := some "Webhook not configured",
       message := some "WEBHOOK_SECRET must be set to enable webhook functionality" }, [])
  | some secret =>
    let ver := verifyWebhookSignature env.hmac env.parseIntJs env.now
      req.body req.signature req.timestamp secret
    if ver.valid = false then
      ({ httpStatus := 401, error := some "Unauthorized" }, [])
    else
      match env.parsePayload req.body with
      | none => ({ httpStatus := 500, error := some "Internal server error" }, [])
      | some payload =>
        if payload.action = none ∨ payload.action = some "" then
          ({ httpStatus := 400, error := some "Action is required" }, [])
        else if payload.action = some "incoming" then
          ({ httpStatus := 200, status := some "pending",
             message := some "Webhook received. Awaiting confirmation.",
             requires_confirmation := some true }, [])
        else
          match payload.item_name, payload.sku, payload.amount with
          | some iname, some sku, some amount =>
            if iname = "" ∨ sku = "" then
              ({ httpStatus := 400, error := some "Bad request" }, [])
            else if amount ≤ 0 then
              ({ httpStatus := 400, error := some "Amount must be a positive integer" }, [])
            else
              match dbi.findBySku sku with
              | .error _ =>
                ({ httpStatus := 500, error := some "Unable to process request" }, [])
              | .ok none =>
                if payload.action = some "add" then
                  let row : NewItemRow :=
                    { name := iname, sku := sku, current_quantity := amount,
                      category_id := uncategorizedId, condition := "good" }
                  match dbi.insertItem row with
                  | .error _ =>
                    ({ httpStatus := 500, error := some "Unable to create item" },
                     [WhEffect.insertItem row])
                  | .ok newItem =>
                    let mvRow : MovementInsertRow :=
                      { item_id := newItem.id, movement_type := "add",
                        quantity := amount, entry_method := "manual",
                        notes := "Created via webhook" }
                    ({ httpStatus := 201, status := some "success",
                       action := some "created", item := some newItem,
                       message := some ("Created new item \"" ++ iname ++
                         "\" with quantity " ++ toString amount) },
                     [WhEffect.insertItem row, WhEffect.insertMovement mvRow])
                else ({ httpStatus := 404, error := some "Item not found" }, [])
              | .ok (some item) =>
                if jsToLowerCase item.name ≠ jsToLowerCase iname then
                  ({ httpStatus := 400, error := some "Item name mismatch" }, [])
                else
                  let newQuantity :=
                    if payload.action = some "add" then item.current_quantity + amount
                    else item.current_quantity - amount
                  match dbi.updateItem item.id newQuantity env.nowIso with
                  | .error _ =>
                    ({ httpStatus := 500, error := some "Unable to update item" },
                     [WhEffect.updateItem item.id newQuantity env.nowIso])
                  | .ok updatedItem =>
                    let mvRow : MovementInsertRow :=
                      { item_id := item.id,
                        movement_type := (payload.action.getD ""),
                        quantity := amount, entry_method := "manual",
                        notes := "Updated via webhook" }
                    ({ httpStatus := 200, status := some "success",
                       action := payload.action, item := some updatedItem,
                       previous_quantity := some item.current_quantity,
                       new_quantity := some newQuantity,
                       change := some ((if payload.action = some "add" then "+" else "-") ++
                         toString amount) },
                     [WhEffect.updateItem item.id newQuantity env.nowIso,
                      WhEffect.insertMovement mvRow])
          | _, _, _ => ({ httpStatus := 400, error := some "Bad request" }, [])

/-- C2.  Quantity arithmetic with no floor: for an existing item with
current_quantity Q, updateQuantity with direction add persists and
returns the item with quantity Q + d, and with direction remove
persists and returns Q - d, over all integers — negative results are
stored and returned without error, whatever the connectivity and the
remote outcomes. -/
theorem c2_update_quantity_arith (remote : RemoteOp → CallOutcome)
    (ctx : MutCtx) (g : Nat) (store : LocalStore) (id : String)
    (quantity : Int) (type : MovementType) (userId : Option String)
    (entryMethod : EntryMethod) (aiConfidence : Option Int)
    (notes : Option String) (condition : Option Cond)
    (ex : InventoryItem) (hEx : getItemStore store id = some ex) :
    (updateQuantity remote ctx g store id quantity type userId
        entryMethod aiConfidence notes condition).ret =
      some { ex with
             current_quantity := if type = .add then ex.current_quantity + quantity
               else ex.current_quantity - quantity,
             updated_at := ctx.now } ∧
    getItemStore (updateQuantity remote ctx g store id quantity type userId
        entryMethod aiConfidence notes condition).store id =
      some { ex with
             current_quantity := if type = .add then ex.current_quantity + quantity
               else ex.current_quantity - quantity,
             updated_at := ctx.now } := by
  have hid : ex.id = id := findById_key _ _ _ _ hEx
  unfold updateQuantity
  rw [hEx]
  refine ⟨rfl, ?_⟩
  simp only [getItemStore]
  rw [← hid]
  exact findById_putById (fun i => i.id)
    { ex with
      current_quantity := if type = .add then ex.current_quantity + quantity
        else ex.current_quantity - quantity,
      updated_at := ctx.now } store.items

/-- C2 witness: an item with quantity 3, remove 5, yields and persists
quantity -2 with no error. -/
theorem c2_update_quantity_arith_witness :
    (updateQuantity (fun _ => CallOutcome.ok)
        ⟨(fun n => Nat.repr n), "t1", false⟩ 0
        ⟨[{ id := "i1", name := "w", sku := "S", current_quantity := 3,
            created_at := "t0", updated_at := "t0" }], [], [], []⟩
        "i1" 5 .remove none .manual none none none).ret =
      some { id := "i1", name := "w", sku := "S", current_quantity := -2,
             created_at := "t0", updated_at := "t1" } := by
  have h := c2_update_quantity_arith (fun _ => CallOutcome.ok)
    ⟨(fun n => Nat.repr n), "t1", false⟩ 0
    ⟨[{ id := "i1", name := "w", sku := "S", current_quantity := 3,
        created_at := "t0", updated_at := "t0" }], [], [], []⟩
    "i1" 5 .remove none .manual none none none
    { id := "i1", name := "w", sku := "S", current_quantity := 3,
      created_at := "t0", updated_at := "t0" } (by decide)
  exact h.1

theorem verify_invalid_of_stale (hmac : String → String → String)
    (parseIntJs : String → Option Int) (now : Int) (body : String)
    (signature : Option String) (ts : String) (secret : String)
    (hBad : parseIntJs ts = none ∨
      ∃ t, parseIntJs ts = some t ∧ 5 * 60 * 1000 < (now - t).natAbs) :
    (verifyWebhookSignature hmac parseIntJs now body signature (some ts)
      secret).valid = false := by
  cases signature with
  | none => rfl
  | some sig =>
    simp only [verifyWebhookSignature]
    by_cases h0 : sig = "" ∨ ts = ""
    · rw [if_pos h0]
    · rw [if_neg h0]
      rcases hBad with hN | ⟨t, ht, hgt⟩
      · rw [hN]
      · rw [ht]
        simp only [if_pos hgt]

/-- C6.  Webhook replay rejection: with a configured secret, any
request whose x-webhook-timestamp header fails parseInt or differs from
the current time by more than five minutes is answered 401 with no
inventory mutation attempted, whatever the supplied signature. -/
theorem c6_replay_rejection (env : WebhookEnv) (dbi : WebhookDb)
    (req : WebhookRequest) (s ts : String)
    (hSecret : env.secret = some s)
    (hTs : req.timestamp = some ts)
    (hBad : env.parseIntJs ts = none ∨
      ∃ t, env.parseIntJs ts = some t ∧ 5 * 60 * 1000 < (env.now - t).natAbs) :
    (stockWebhookHandler env dbi req).1.httpStatus = 401 ∧
    (stockWebhookHandler env dbi req).2 = [] := by
  have hv := verify_invalid_of_stale env.hmac env.parseIntJs env.now
    req.body req.signature ts s hBad
  unfold stockWebhookHandler
  rw [hSecret, hTs]
  simp [hv]

/-- C6 witness: a stale timestamp (ten minutes old) is rejected even
though the supplied signature matches the digest oracle. -/
theorem c6_replay_rejection_witness :
    (stockWebhookHandler
        ⟨some "sec", (fun _ _ => "sig"), (fun _ => some 0), 600000, "T",
         (fun _ => none)⟩
        ⟨(fun _ => .ok none), (fun _ => .error ()), (fun _ _ _ => .error ())⟩
        ⟨"b", some "sig", some "0"⟩).1.httpStatus = 401 ∧
    (stockWebhookHandler
        ⟨some "sec", (fun _ _ => "sig"), (fun _ => some 0), 600000, "T",
         (fun _ => none)⟩
        ⟨(fun _ => .ok none), (fun _ => .error ()), (fun _ _ _ => .error ())⟩
        ⟨"b", some "sig", some "0"⟩).2 = [] :=
  c6_replay_rejection
    ⟨some "sec", (fun _ _ => "sig"), (fun _ => some 0), 600000, "T",
     (fun _ => none)⟩
    ⟨(fun _ => .ok none), (fun _ => .error ()), (fun _ _ _ => .error ())⟩
    ⟨"b", some "sig", some "0"⟩ "sec" "0" rfl rfl
    (Or.inr ⟨0, rfl, by decide⟩)

/-- C9.  Silent drop: an unsynced queue entry that is a stock_movements
update or delete, or whose table name is none of the three known
tables, falls through every dispatch branch straight to markAsSynced —
no remote write is attempted, the entry is marked synced, and the
garbage-collection step then deletes it. -/
theorem c9_silent_drop (remote : RemoteOp → CallOutcome)
    (parse : String → Option RecordData) (now : String)
    (e : SyncQueueItem) (hUnsynced : e.synced = false)
    (hKind : (e.table_name = "stock_movements" ∧
        (e.action = .update ∨ e.action = .delete)) ∨
      (e.table_name ≠ "inventory_items" ∧ e.table_name ≠ "stock_movements" ∧
        e.table_name ≠ "device_users"))
    (items : List InventoryItem) (users : List DeviceUser)
    (mvs : List StockMovement) :
    syncEntry remote parse e = ⟨[], true⟩ ∧
    (syncLocalChanges remote parse now ⟨items, users, mvs, [e]⟩).2 = [] ∧
    (clearSyncedStore
      (syncLocalChanges remote parse now ⟨items, users, mvs, [e]⟩).1).sync_queue = [] := by
  have hE : syncEntry remote parse e = ⟨[], true⟩ := by
    rcases hKind with ⟨hT, hA⟩ | ⟨h1, h2, h3⟩
    · have hT1 : e.table_name ≠ "inventory_items" := by rw [hT]; decide
      rcases hA with hA | hA <;> simp [syncEntry, hT1, hT, hA]
    · simp [syncEntry, h1, h2, h3]
  refine ⟨hE, ?_, ?_⟩ <;>
    simp [syncLocalChanges, getUnsynced, hUnsynced, hE, markAsSyncedQueue,
      clearSyncedStore]

/-- C9 witness: an unsynced delete queued against stock_movements is
dropped without any remote write and purged by garbage collection. -/
theorem c9_silent_drop_witness :
    syncEntry (fun _ => CallOutcome.ok) (fun _ => none)
      ⟨"q9", .delete, "stock_movements", .idOnly "m1", false, "t0", none⟩ =
      ⟨[], true⟩ ∧
    (syncLocalChanges (fun _ => CallOutcome.ok) (fun _ => none) "t1"
      ⟨[], [], [], [⟨"q9", .delete, "stock_movements", .idOnly "m1", false, "t0", none⟩]⟩).2 = [] ∧
    (clearSyncedStore
      (syncLocalChanges (fun _ => CallOutcome.ok) (fun _ => none) "t1"
        ⟨[], [], [], [⟨"q9", .delete, "stock_movements", .idOnly "m1", false, "t0", none⟩]⟩).1).sync_queue = [] :=
  c9_silent_drop (fun _ => CallOutcome.ok) (fun _ => none) "t1"
    ⟨"q9", .delete, "stock_movements", .idOnly "m1", false, "t0", none⟩
    rfl (Or.inl ⟨rfl, Or.inr rfl⟩) [] [] []

/-- C3.  Foreign-key downgrade retry: an unsynced stock_movements
insert whose first remote upsert fails with error code 23503 and a
message naming device_user_id is retried exactly once with that field
removed from the payload; when the retry succeeds the entry is marked
synced. -/
theorem c3_fk_downgrade_retry (remote : RemoteOp → CallOutcome)
    (parse : String → Option RecordData) (now : String)
    (e : SyncQueueItem) (m : StockMovement) (msg : String)
    (hTable : e.table_name = "stock_movements")
    (hAction : e.action = .insert)
    (hUnsynced : e.synced = false)
    (hData : e.record_data = .movement m)
    (hFail : remote (RemoteOp.upsertMovement (.movement m)) = .err "23503" msg)
    (hMsg : strIncludes msg "device_user_id" = true)
    (hRetry : remote
      (RemoteOp.upsertMovement (.movement { m with device_user_id := none })) = .ok)
    (items : List InventoryItem) (users : List DeviceUser)
    (mvs : List StockMovement) :
    syncEntry remote parse e =
      ⟨[RemoteOp.upsertMovement (.movement m),
        RemoteOp.upsertMovement (.movement { m with device_user_id := none })],
       true⟩ ∧
    (syncLocalChanges remote parse now ⟨items, users, mvs, [e]⟩).1.sync_queue =
      [{ e with synced := true, synced_at := some now }] := by
  have hT1 : e.table_name ≠ "inventory_items" := by rw [hTable]; decide
  have hE : syncEntry remote parse e =
      ⟨[RemoteOp.upsertMovement (.movement m),
        RemoteOp.upsertMovement (.movement { m with device_user_id := none })],
       true⟩ := by
    simp [syncEntry, hT1, hTable, hAction, hData, resolveRecordData, hFail,
      stripDeviceUserId, hMsg, hRetry]
  refine ⟨hE, ?_⟩
  simp [syncLocalChanges, getUnsynced, hUnsynced, hE, markAsSyncedQueue]

/-- C3 witness: a concrete movement entry whose first upsert hits the
device_user_id foreign-key error and whose stripped retry succeeds. -/
theorem c3_fk_downgrade_retry_witness :
    syncEntry
      (fun op =>
        if op = RemoteOp.upsertMovement (.movement
            ⟨"m1", "i1", some "u9", some "u9", .add, 1, .manual, none, none, none, "t0"⟩)
        then CallOutcome.err "23503"
          "violates foreign key constraint on device_user_id"
        else CallOutcome.ok)
      (fun _ => none)
      ⟨"q3", .insert, "stock_movements",
        .movement ⟨"m1", "i1", some "u9", some "u9", .add, 1, .manual, none, none, none, "t0"⟩,
        false, "t0", none⟩ =
      ⟨[RemoteOp.upsertMovement (.movement
          ⟨"m1", "i1", some "u9", some "u9", .add, 1, .manual, none, none, none, "t0"⟩),
        RemoteOp.upsertMovement (.movement
          ⟨"m1", "i1", none, some "u9", .add, 1, .manual, none, none, none, "t0"⟩)],
       true⟩ :=
  (c3_fk_downgrade_retry
    (fun op =>
      if op = RemoteOp.upsertMovement (.movement
          ⟨"m1", "i1", some "u9", some "u9", .add, 1, .manual, none, none, none, "t0"⟩)
      then CallOutcome.err "23503"
        "violates foreign key constraint on device_user_id"
      else CallOutcome.ok)
    (fun _ => none) "t1"
    ⟨"q3", .insert, "stock_movements",
      .movement ⟨"m1", "i1", some "u9", some "u9", .add, 1, .manual, none, none, none, "t0"⟩,
      false, "t0", none⟩
    ⟨"m1", "i1", some "u9", some "u9", .add, 1, .manual, none, none, none, "t0"⟩
    "violates foreign key constraint on device_user_id"
    rfl rfl rfl rfl (by decide) (by decide) (by decide) [] [] []).1

/-- The queue entry of the C5 scenario: an inventory_items update whose
payload was persisted as a raw string that JSON.parse rejects. -/
def c5Entry : SyncQueueItem :=
  { id := "q5", action := .update, table_name := "inventory_items",
    record_data := .str "not-json", synced := false, created_at := "t0" }

/-- C5 counterexample: with a parse oracle that fails on the string
payload and a remote that accepts everything, the push loop still
dispatches the raw string to the remote store (ops is nonempty) and
marks the entry synced — the entry is neither skipped nor left
unsynced. -/
theorem c5_counterexample :
    syncEntry (fun _ => CallOutcome.ok) (fun _ => none) c5Entry =
      ⟨[RemoteOp.upsertItem (.str "not-json")], true⟩ ∧
    (syncEntry (fun _ => CallOutcome.ok) (fun _ => none) c5Entry).ops ≠ [] := by
  decide

/-- C5 as amended: an unsynced inventory_items insert or update whose
record_data is a string that fails to parse is not skipped — the raw
string is dispatched to the remote store, and the entry is marked
synced exactly when that dispatch returns ok (so it remains unsynced
only when the remote call fails). -/
theorem c5_parse_failure_dispatch (remote : RemoteOp → CallOutcome)
    (parse : String → Option RecordData) (e : SyncQueueItem) (s : String)
    (hData : e.record_data = .str s) (hParse : parse s = none)
    (hTable : e.table_name = "inventory_items")
    (hAction : e.action = .insert ∨ e.action = .update) :
    (syncEntry remote parse e).ops = [RemoteOp.upsertItem (.str s)] ∧
    ((syncEntry remote parse e).synced = true ↔
      remote (RemoteOp.upsertItem (.str s)) = .ok) := by
  cases hOut : remote (RemoteOp.upsertItem (.str s)) <;>
    rcases hAction with hA | hA <;>
      simp [syncEntry, hTable, hA, hData, resolveRecordData, hParse, hOut]

/-- C5 witness: the amended behaviour evaluated on the concrete entry,
with a remote that accepts the dispatched string. -/
theorem c5_parse_failure_dispatch_witness :
    (syncEntry (fun _ => CallOutcome.ok) (fun _ => none) c5Entry).ops =
      [RemoteOp.upsertItem (.str "not-json")] ∧
    ((syncEntry (fun _ => CallOutcome.ok) (fun _ => none) c5Entry).synced = true ↔
      (fun _ => CallOutcome.ok) (RemoteOp.upsertItem (.str "not-json")) = CallOutcome.ok) :=
  c5_parse_failure_dispatch (fun _ => CallOutcome.ok) (fun _ => none)
    c5Entry "not-json" rfl rfl rfl (Or.inr rfl)

/-- C4.  Sync guard and phase order: a trigger while offline or while a
pass is already running is dropped outright (state, store and attempted
ops unchanged and empty); otherwise the pass pushes the unsynced queue
entries, then pulls the three remote collections into the local store,
then deletes the queue entries marked synced, clears the in-progress
guard, and leaves no synced entry behind. -/
theorem c4_trigger_sync_guard_phases (remote : RemoteOp → CallOutcome)
    (parse : String → Option RecordData) (now : String) (pd : PullData)
    (st1 : SyncState) (store1 : LocalStore)
    (st2 : SyncState) (store2 : LocalStore)
    (hDrop : st1.isOnline = false ∨ st1.syncInProgress = true)
    (hOn : st2.isOnline = true) (hIdle : st2.syncInProgress = false) :
    triggerSync remote parse now pd st1 store1 = (st1, store1, []) ∧
    triggerSync remote parse now pd st2 store2 =
      (⟨true, false⟩,
       clearSyncedStore (fetchFromServer pd (syncLocalChanges remote parse now store2).1),
       (syncLocalChanges remote parse now store2).2) ∧
    ∀ e ∈ (triggerSync remote parse now pd st2 store2).2.1.sync_queue,
      e.synced = false := by
  have hGo : ¬ (st2.isOnline = false ∨ st2.syncInProgress = true) := by
    simp [hOn, hIdle]
  refine ⟨?_, ?_, ?_⟩
  · unfold triggerSync
    rw [if_pos hDrop]
  · unfold triggerSync
    rw [if_neg hGo, hOn]
  · unfold triggerSync
    rw [if_neg hGo]
    intro e he
    simp only [clearSyncedStore, List.mem_filter] at he
    simpa using he.2

/-- C4 witness: a dropped trigger (offline) and a full pass (online,
idle) on concrete states. -/
theorem c4_trigger_sync_guard_phases_witness :
    triggerSync (fun _ => CallOutcome.ok) (fun _ => none) "t1"
      ⟨none, none, none⟩ ⟨false, false⟩ ⟨[], [], [], []⟩ =
      (⟨false, false⟩, ⟨[], [], [], []⟩, []) ∧
    triggerSync (fun _ => CallOutcome.ok) (fun _ => none) "t1"
      ⟨none, none, none⟩ ⟨true, false⟩ ⟨[], [], [], []⟩ =
      (⟨true, false⟩,
       clearSyncedStore (fetchFromServer ⟨none, none, none⟩
         (syncLocalChanges (fun _ => CallOutcome.ok) (fun _ => none) "t1"
           ⟨[], [], [], []⟩).1),
       (syncLocalChanges (fun _ => CallOutcome.ok) (fun _ => none) "t1"
         ⟨[], [], [], []⟩).2) ∧
    ∀ e ∈ (triggerSync (fun _ => CallOutcome.ok) (fun _ => none) "t1"
        ⟨none, none, none⟩ ⟨true, false⟩ ⟨[], [], [], []⟩).2.1.sync_queue,
      e.synced = false :=
  c4_trigger_sync_guard_phases (fun _ => CallOutcome.ok) (fun _ => none)
    "t1" ⟨none, none, none⟩ ⟨false, false⟩ ⟨[], [], [], []⟩
    ⟨true, false⟩ ⟨[], [], [], []⟩ (Or.inl rfl) rfl rfl

/-- The webhook environment of the C7 scenario: a configured secret, a
digest oracle matching the supplied signature, and a parsed payload
that carries condition damaged. -/
def c7Env : WebhookEnv :=
  { secret := some "sec", hmac := fun _ _ => "sig",
    parseIntJs := fun _ => some 0, now := 0, nowIso := "T",
    parsePayload := fun _ => some
      { action := some "add", item_name := some "Widget", sku := some "W-1",
        amount := some 5, condition := some "damaged" } }

/-- The remote store of the C7 scenario: the SKU resolves to an
existing item with quantity 3 and the update succeeds. -/
def c7Db : WebhookDb :=
  { findBySku := fun _ => .ok (some ⟨"id1", "Widget", "W-1", 3⟩),
    insertItem := fun _ => .error (),
    updateItem := fun id q _ => .ok ⟨id, "Widget", "W-1", q⟩ }

/-- The request of the C7 scenario. -/
def c7Req : WebhookRequest :=
  { body := "b", signature := some "sig", timestamp := some "0" }

/-- C7 counterexample: an accepted add on an existing item whose
payload carries condition damaged records a movement row with no
condition key at all — the recorded condition (none) is not the
payload value (some damaged). -/
theorem c7_counterexample :
    (stockWebhookHandler c7Env c7Db c7Req).2 =
      [WhEffect.updateItem "id1" 8 "T",
       WhEffect.insertMovement
         ⟨"id1", "add", 5, "manual", "Updated via webhook", none⟩] ∧
    (c7Env.parsePayload c7Req.body).map (fun p => p.condition) =
      some (some "damaged") ∧
    (none : Option String) ≠ some "damaged" := by
  refine ⟨?_, ?_, ?_⟩ <;> decide

/-- C7 as amended: every stock movement the webhook handler records —
on any path, for any payload — has entry method manual and no
condition field; the optional condition of the payload is ignored, and
since stock_movements.condition has no database default the stored
condition is NULL. -/
theorem c7_movement_entry_method (env : WebhookEnv) (dbi : WebhookDb)
    (req : WebhookRequest) (row : MovementInsertRow)
    (h : WhEffect.insertMovement row ∈ (stockWebhookHandler env dbi req).2) :
    row.entry_method = "manual" ∧ row.condition = none := by
  simp only [stockWebhookHandler] at h
  repeat' split at h
  all_goals simp_all

/-- C7 witness: the movement row recorded in the concrete C7 scenario
has entry method manual and no condition. -/
theorem c7_movement_entry_method_witness :
    (⟨"id1", "add", 5, "manual", "Updated via webhook", none⟩ :
      MovementInsertRow).entry_method = "manual" ∧
    (⟨"id1", "add", 5, "manual", "Updated via webhook", none⟩ :
      MovementInsertRow).condition = none :=
  c7_movement_entry_method c7Env c7Db c7Req
    ⟨"id1", "add", 5, "manual", "Updated via webhook", none⟩ (by decide)

/-- The webhook environment of the C8 creation scenario: a valid
signed add request for a SKU that does not exist yet. -/
def c8Env : WebhookEnv :=
  { secret := some "sec", hmac := fun _ _ => "sig",
    parseIntJs := fun _ => some 0, now := 0, nowIso := "T",
    parsePayload := fun _ => some
      { action := some "add", item_name := some "Widget", sku := some "W-1",
        amount := some 10 } }

/-- The remote store of the C8 creation scenario: no item matches the
SKU and the insert succeeds. -/
def c8Db : WebhookDb :=
  { findBySku := fun _ => .ok none,
    insertItem := fun r => .ok ⟨"id2", r.name, r.sku, r.current_quantity⟩,
    updateItem := fun _ _ _ => .error () }

/-- The request of the C8 creation scenario. -/
def c8Req : WebhookRequest :=
  { body := "b8", signature := some "sig", timestamp := some "0" }

/-- C8 counterexample: the 201 item-creation success response carries
the created item but no previous_quantity and no new_quantity field,
so not every success path returns the quantity before and after the
change. -/
theorem c8_counterexample :
    (stockWebhookHandler c8Env c8Db c8Req).1.httpStatus = 201 ∧
    (stockWebhookHandler c8Env c8Db c8Req).1.item =
      some ⟨"id2", "Widget", "W-1", 10⟩ ∧
    (stockWebhookHandler c8Env c8Db c8Req).1.previous_quantity = none ∧
    (stockWebhookHandler c8Env c8Db c8Req).1.new_quantity = none := by
  refine ⟨?_, ?_, ?_, ?_⟩ <;> decide

/-- C8 as amended: the 200 update-path success response contains the
updated item together with previous_quantity and new_quantity, while
the 201 creation-path response contains the created item (whose
current_quantity is the initial quantity) and a message, but no
previous_quantity and no new_quantity field. -/
theorem c8_response_shape
    (env1 : WebhookEnv) (db1 : WebhookDb) (req1 : WebhookRequest)
    (p1 : WebhookPayload) (a iname sku1 : String) (amount : Int)
    (item updatedItem : FoundItem) (s1 : String)
    (hS1 : env1.secret = some s1)
    (hV1 : (verifyWebhookSignature env1.hmac env1.parseIntJs env1.now
      req1.body req1.signature req1.timestamp s1).valid = true)
    (hP1 : env1.parsePayload req1.body = some p1)
    (hA1 : p1.action = some a) (hAne : a ≠ "") (hAinc : a ≠ "incoming")
    (hN1 : p1.item_name = some iname) (hNne : iname ≠ "")
    (hK1 : p1.sku = some sku1) (hKne : sku1 ≠ "")
    (hM1 : p1.amount = some amount) (hMpos : 0 < amount)
    (hF1 : db1.findBySku sku1 = .ok (some item))
    (hName : jsToLowerCase item.name = jsToLowerCase iname)
    (hU1 : db1.updateItem item.id
      (if a = "add" then item.current_quantity + amount
       else item.current_quantity - amount) env1.nowIso = .ok updatedItem)
    (env2 : WebhookEnv) (db2 : WebhookDb) (req2 : WebhookRequest)
    (p2 : WebhookPayload) (iname2 sku2 : String) (amount2 : Int)
    (newItem : FoundItem) (s2 : String)
    (hS2 : env2.secret = some s2)
    (hV2 : (verifyWebhookSignature env2.hmac env2.parseIntJs env2.now
      req2.body req2.signature req2.timestamp s2).valid = true)
    (hP2 : env2.parsePayload req2.body = some p2)
    (hA2 : p2.action = some "add")
    (hN2 : p2.item_name = some iname2) (hNne2 : iname2 ≠ "")
    (hK2 : p2.sku = some sku2) (hKne2 : sku2 ≠ "")
    (hM2 : p2.amount = some amount2) (hMpos2 : 0 < amount2)
    (hF2 : db2.findBySku sku2 = .ok none)
    (hI2 : db2.insertItem
      ⟨iname2, sku2, amount2, uncategorizedId, "good"⟩ = .ok newItem) :
    (stockWebhookHandler env1 db1 req1).1 =
      { httpStatus := 200, status := some "success", action := some a,
        item := some updatedItem,
        previous_quantity := some item.current_quantity,
        new_quantity := some (if a = "add" then item.current_quantity + amount
          else item.current_quantity - amount),
        change := some ((if a = "add" then "+" else "-") ++ toString amount) } ∧
    (stockWebhookHandler env2 db2 req2).1 =
      { httpStatus := 201, status := some "success",
        action := some "created", item := some newItem,
        message := some ("Created new item \"" ++ iname2 ++
          "\" with quantity " ++ toString amount2) } ∧
    (stockWebhookHandler env2 db2 req2).1.previous_quantity = none ∧
    (stockWebhookHandler env2 db2 req2).1.new_quantity = none := by
  have hMle : ¬ (amount ≤ 0) := Int.not_le.mpr hMpos
  have hMle2 : ¬ (amount2 ≤ 0) := Int.not_le.mpr hMpos2
  have hNameEq : ¬ (jsToLowerCase item.name ≠ jsToLowerCase iname) :=
    fun hc => hc hName
  have h200 : (stockWebhookHandler env1 db1 req1).1 =
      { httpStatus := 200, status := some "success", action := some a,
        item := some updatedItem,
        previous_quantity := some item.current_quantity,
        new_quantity := some (if a = "add" then item.current_quantity + amount
          else item.current_quantity - amount),
        change := some ((if a = "add" then "+" else "-") ++ toString amount) } := by
    simp only [stockWebhookHandler, hS1, hV1, hP1, hA1, hN1, hK1, hM1, hF1]
    simp only [Option.some.injEq, reduceCtorEq, hAne, hAinc, hNne, hKne,
      or_self, if_false, hMle, hNameEq, ite_false, false_or, or_false,
      if_true, Bool.true_eq_false]
    simp [hU1]
  have h201 : (stockWebhookHandler env2 db2 req2).1 =
      { httpStatus := 201, status := some "success",
        action := some "created", item := some newItem,
        message := some ("Created new item \"" ++ iname2 ++
          "\" with quantity " ++ toString amount2) } := by
    simp only [stockWebhookHandler, hS2, hV2, hP2, hA2, hN2, hK2, hM2, hF2]
    simp [hNne2, hKne2, hMle2, hI2]
  exact ⟨h200, h201, by rw [h201], by rw [h201]⟩

/-- Environment of the C8 update scenario used by the witness. -/
def c8uEnv : WebhookEnv :=
  { secret := some "sec", hmac := fun _ _ => "sig",
    parseIntJs := fun _ => some 0, now := 0, nowIso := "T",
    parsePayload := fun _ => some
      { action := some "add", item_name := some "Widget", sku := some "W-1",
        amount := some 5 } }

/-- Remote store of the C8 update scenario used by the witness. -/
def c8uDb : WebhookDb :=
  { findBySku := fun _ => .ok (some ⟨"id1", "Widget", "W-1", 3⟩),
    insertItem := fun _ => .error (),
    updateItem := fun id q _ => .ok ⟨id, "Widget", "W-1", q⟩ }

/-- Request of the C8 update scenario used by the witness. -/
def c8uReq : WebhookRequest :=
  { body := "bu", signature := some "sig", timestamp := some "0" }

/-- C8 witness: the amended response shapes evaluated on a concrete
update run (200 with before/after) and a concrete creation run (201
without before/after). -/
theorem c8_response_shape_witness :
    (stockWebhookHandler c8uEnv c8uDb c8uReq).1 =
      { httpStatus := 200, status := some "success", action := some "add",
        item := some ⟨"id1", "Widget", "W-1", 8⟩,
        previous_quantity := some 3,
        new_quantity := some (if "add" = "add" then 3 + 5 else 3 - 5),
        change := some ((if "add" = "add" then "+" else "-") ++ toString (5 : Int)) } ∧
    (stockWebhookHandler c8Env c8Db c8Req).1 =
      { httpStatus := 201, status := some "success",
        action := some "created", item := some ⟨"id2", "Widget", "W-1", 10⟩,
        message := some ("Created new item \"" ++ "Widget" ++
          "\" with quantity " ++ toString (10 : Int)) } ∧
    (stockWebhookHandler c8Env c8Db c8Req).1.previous_quantity = none ∧
    (stockWebhookHandler c8Env c8Db c8Req).1.new_quantity = none :=
  c8_response_shape c8uEnv c8uDb c8uReq
    { action := some "add", item_name := some "Widget", sku := some "W-1",
      amount := some 5 }
    "add" "Widget" "W-1" 5 ⟨"id1", "Widget", "W-1", 3⟩
    ⟨"id1", "Widget", "W-1", 8⟩ "sec"
    rfl (by decide) rfl rfl (by decide) (by decide) rfl (by decide) rfl
    (by decide) rfl (by decide) rfl (by decide) rfl
    c8Env c8Db c8Req
    { action := some "add", item_name := some "Widget", sku := some "W-1",
      amount := some 10 }
    "Widget" "W-1" 10 ⟨"id2", "Widget", "W-1", 10⟩ "sec"
    rfl (by decide) rfl rfl rfl (by decide) rfl (by decide) rfl (by decide)
    rfl rfl

theorem updateQuantityImmediate_movement_rows
    (remote : RemoteOp → CallOutcome) (movement : StockMovement)
    (updated : InventoryItem) (userId : Option String) (row : StockMovement)
    (h : RemoteOp.upsertMovement (.movement row) ∈
      (updateQuantityImmediate remote movement updated userId).1) :
    row = immediateMovementRow movement userId := by
  simp only [updateQuantityImmediate] at h
  repeat' split at h
  all_goals simp_all

/-- C10.  Actor attribution dropped on the immediate remote write: in
the online path of updateQuantity and addStockMovement, every movement
row upserted directly to the remote store has device_user_id null,
while the movement saved to the local store carries the supplied
actorId in device_user_id — so with an actorId present the local and
remote copies of the same movement id differ on that field. -/
theorem c10_attribution_dropped (remote : RemoteOp → CallOutcome)
    (ctx : MutCtx) (g : Nat) (store : LocalStore) (id itemId : String)
    (quantity : Int) (type : MovementType) (userId : Option String)
    (entryMethod : EntryMethod) (aiConfidence : Option Int)
    (notes : Option String) (condition : Option Cond) (ex : InventoryItem)
    (hOnline : ctx.online = true)
    (hEx : getItemStore store id = some ex) :
    (∀ row, RemoteOp.upsertMovement (.movement row) ∈
        (updateQuantity remote ctx g store id quantity type userId
          entryMethod aiConfidence notes condition).remoteOps →
      row.device_user_id = none) ∧
    (∃ mv, getMovementStore
        (updateQuantity remote ctx g store id quantity type userId
          entryMethod aiConfidence notes condition).store
        (ctx.uuid (g + 1)) = some mv ∧ mv.device_user_id = userId) ∧
    (∀ row, RemoteOp.upsertMovement (.movement row) ∈
        (addStockMovement remote ctx g store itemId quantity type userId
          entryMethod aiConfidence notes condition).remoteOps →
      row.device_user_id = none) ∧
    (∃ mv, getMovementStore
        (addStockMovement remote ctx g store itemId quantity type userId
          entryMethod aiConfidence notes condition).store
        (ctx.uuid g) = some mv ∧ mv.device_user_id = userId) := by
  refine ⟨?_, ?_, ?_, ?_⟩
  · intro row h
    unfold updateQuantity at h
    rw [hEx, hOnline] at h
    simp only [if_true] at h
    have := updateQuantityImmediate_movement_rows remote _ _ userId row h
    rw [this]
    rfl
  · unfold updateQuantity
    rw [hEx]
    refine ⟨{ id := ctx.uuid (g + 1), item_id := id, device_user_id := userId,
              user_id := userId, movement_type := type, quantity := quantity,
              entry_method := entryMethod, ai_confidence := aiConfidence,
              notes := notes, condition := condition, created_at := ctx.now },
      ?_, rfl⟩
    simp only [getMovementStore]
    exact findById_putById (fun m => m.id)
      { id := ctx.uuid (g + 1), item_id := id, device_user_id := userId,
        user_id := userId, movement_type := type, quantity := quantity,
        entry_method := entryMethod, ai_confidence := aiConfidence,
        notes := notes, condition := condition, created_at := ctx.now }
      store.movements
  · intro row h
    simp only [addStockMovement, hOnline, if_true] at h
    repeat' split at h
    all_goals simp_all [immediateMovementRow]
  · unfold addStockMovement
    refine ⟨{ id := ctx.uuid g, item_id := itemId, device_user_id := userId,
              user_id := userId, movement_type := type, quantity := quantity,
              entry_method := entryMethod, ai_confidence := aiConfidence,
              notes := notes, condition := condition, created_at := ctx.now },
      ?_, rfl⟩
    simp only [getMovementStore]
    exact findById_putById (fun m => m.id)
      { id := ctx.uuid g, item_id := itemId, device_user_id := userId,
        user_id := userId, movement_type := type, quantity := quantity,
        entry_method := entryMethod, ai_confidence := aiConfidence,
        notes := notes, condition := condition, created_at := ctx.now }
      store.movements

/-- C10 witness: online, with actorId u1, the immediate remote row
drops the actor while the locally saved movement keeps it. -/
theorem c10_attribution_dropped_witness :
    (∀ row, RemoteOp.upsertMovement (.movement row) ∈
        (updateQuantity (fun _ => CallOutcome.ok)
          ⟨(fun n => Nat.repr n), "t1", true⟩ 0
          ⟨[{ id := "i1", name := "w", sku := "S", current_quantity := 3,
              created_at := "t0", updated_at := "t0" }], [], [], []⟩
          "i1" 2 .add (some "u1") .manual none none none).remoteOps →
      row.device_user_id = none) ∧
    (∃ mv, getMovementStore
        (updateQuantity (fun _ => CallOutcome.ok)
          ⟨(fun n => Nat.repr n), "t1", true⟩ 0
          ⟨[{ id := "i1", name := "w", sku := "S", current_quantity := 3,
              created_at := "t0", updated_at := "t0" }], [], [], []⟩
          "i1" 2 .add (some "u1") .manual none none none).store
        (Nat.repr 1) = some mv ∧ mv.device_user_id = some "u1") ∧
    (∀ row, RemoteOp.upsertMovement (.movement row) ∈
        (addStockMovement (fun _ => CallOutcome.ok)
          ⟨(fun n => Nat.repr n), "t1", true⟩ 0
          ⟨[{ id := "i1", name := "w", sku := "S", current_quantity := 3,
              created_at := "t0", updated_at := "t0" }], [], [], []⟩
          "i1" 2 .add (some "u1") .manual none none none).remoteOps →
      row.device_user_id = none) ∧
    (∃ mv, getMovementStore
        (addStockMovement (fun _ => CallOutcome.ok)
          ⟨(fun n => Nat.repr n), "t1", true⟩ 0
          ⟨[{ id := "i1", name := "w", sku := "S", current_quantity := 3,
              created_at := "t0", updated_at := "t0" }], [], [], []⟩
          "i1" 2 .add (some "u1") .manual none none none).store
        (Nat.repr 0) = some mv ∧ mv.device_user_id = some "u1") :=
  c10_attribution_dropped (fun _ => CallOutcome.ok)
    ⟨(fun n => Nat.repr n), "t1", true⟩ 0
    ⟨[{ id := "i1", name := "w", sku := "S", current_quantity := 3,
        created_at := "t0", updated_at := "t0" }], [], [], []⟩
    "i1" "i1" 2 .add (some "u1") .manual none none none
    { id := "i1", name := "w", sku := "S", current_quantity := 3,
      created_at := "t0", updated_at := "t0" }
    rfl (by decide)

theorem enqueueList_one_fresh (uuid : Nat → String) (now : String) (g : Nat)
    (a1 : QueueAction) (t1 : String) (rd1 : RecordData)
    (q : List SyncQueueItem) (h1 : ∀ y ∈ q, y.id ≠ uuid g) :
    (enqueueList uuid now g [(a1, t1, rd1)] q).2 =
      q ++ [mkQueueEntry (uuid g) a1 t1 rd1 now] := by
  simp only [enqueueList]
  exact putById_fresh _ _ _ h1

theorem enqueueList_two_fresh (uuid : Nat → String) (now : String) (g : Nat)
    (a1 : QueueAction) (t1 : String) (rd1 : RecordData)
    (a2 : QueueAction) (t2 : String) (rd2 : RecordData)
    (q : List SyncQueueItem)
    (h1 : ∀ y ∈ q, y.id ≠ uuid g) (h2 : ∀ y ∈ q, y.id ≠ uuid (g + 1))
    (h12 : uuid g ≠ uuid (g + 1)) :
    (enqueueList uuid now g [(a1, t1, rd1), (a2, t2, rd2)] q).2 =
      q ++ [mkQueueEntry (uuid g) a1 t1 rd1 now,
            mkQueueEntry (uuid (g + 1)) a2 t2 rd2 now] := by
  simp only [enqueueList]
  rw [putById_fresh _ _ _ (fun y hy => h1 y hy)]
  rw [putById_fresh (fun e => e.id) (mkQueueEntry (uuid (g + 1)) a2 t2 rd2 now)
    (q ++ [mkQueueEntry (uuid g) a1 t1 rd1 now]) ?hfresh]
  · simp
  case hfresh =>
    intro y hy
    rcases List.mem_append.mp hy with hq | he
    · exact h2 y hq
    · rw [List.mem_singleton.mp he]
      exact h12

/-- The item of the C1 scenario. -/
def c1Ex : InventoryItem :=
  { id := "i1", name := "w", sku := "S", current_quantity := 3,
    created_at := "t0", updated_at := "t0" }

/-- The local store of the C1 scenario: one item, empty queue. -/
def c1Store : LocalStore := ⟨[c1Ex], [], [], []⟩

/-- The offline call context of the C1 scenario. -/
def c1Ctx : MutCtx := ⟨(fun n => Nat.repr n), "t1", false⟩

/-- C1 counterexample: an offline updateQuantity leaves two unsynced
inventory_items update entries in the queue, not one (the item update
is enqueued once unconditionally and once more in the offline branch),
while the stock_movements insert entry is indeed unique. -/
theorem c1_counterexample :
    ((updateQuantity (fun _ => CallOutcome.ok) c1Ctx 0 c1Store "i1" 2 .add
        none .manual none none none).store.sync_queue.filter
      (fun e => decide (e.table_name = "inventory_items" ∧
        e.action = .update ∧ e.synced = false))).length = 2 ∧
    ¬ ((updateQuantity (fun _ => CallOutcome.ok) c1Ctx 0 c1Store "i1" 2 .add
        none .manual none none none).store.sync_queue.filter
      (fun e => decide (e.table_name = "inventory_items" ∧
        e.action = .update ∧ e.synced = false))).length = 1 ∧
    ((updateQuantity (fun _ => CallOutcome.ok) c1Ctx 0 c1Store "i1" 2 .add
        none .manual none none none).store.sync_queue.filter
      (fun e => decide (e.table_name = "stock_movements" ∧
        e.action = .insert ∧ e.synced = false))).length = 1 := by
  refine ⟨?_, ?_, ?_⟩ <;> decide

/-- C1 as amended.  Queue completeness while offline: with fresh queue
ids, each offline mutation appends exactly one unsynced queue entry per
record written (insert for addItem, update for updateItem, insert for
addStockMovement, delete for deleteItem, insert for addUser) — except
updateQuantity, which appends exactly one stock_movements insert entry
and two identical inventory_items update entries, because the item
update is enqueued once unconditionally and once more in the offline
branch.  All appended entries are created by mkQueueEntry with synced
false. -/
theorem c1_offline_queue_entries (remote : RemoteOp → CallOutcome)
    (ctx : MutCtx) (g : Nat) (store : LocalStore) (draft : ItemDraft)
    (itemId delId userName : String) (upd : ItemUpdates) (quantity : Int)
    (type : MovementType) (userId : Option String)
    (entryMethod : EntryMethod) (aiConfidence : Option Int)
    (notes : Option String) (condition : Option Cond) (ex : InventoryItem)
    (hOffline : ctx.online = false)
    (hEx : getItemStore store itemId = some ex)
    (hNotMem : ∀ e ∈ store.sync_queue, e.id ≠ ctx.uuid g ∧
      e.id ≠ ctx.uuid (g + 1) ∧ e.id ≠ ctx.uuid (g + 2) ∧
      e.id ≠ ctx.uuid (g + 3))
    (h02 : ctx.uuid g ≠ ctx.uuid (g + 2))
    (h03 : ctx.uuid g ≠ ctx.uuid (g + 3))
    (h23 : ctx.uuid (g + 2) ≠ ctx.uuid (g + 3)) :
    (addItem ctx g store draft).store.sync_queue =
      store.sync_queue ++
        [mkQueueEntry (ctx.uuid (g + 1)) .insert "inventory_items"
          (.item (addItem ctx g store draft).ret) ctx.now] ∧
    (updateItem ctx g store itemId upd).store.sync_queue =
      store.sync_queue ++
        [mkQueueEntry (ctx.uuid g) .update "inventory_items"
          (.item { applyUpdates ex upd with updated_at := ctx.now }) ctx.now] ∧
    (updateQuantity remote ctx g store itemId quantity type userId
        entryMethod aiConfidence notes condition).store.sync_queue =
      store.sync_queue ++
        [mkQueueEntry (ctx.uuid g) .update "inventory_items"
          (.item { ex with
                   current_quantity := if type = .add then ex.current_quantity + quantity
                     else ex.current_quantity - quantity,
                   updated_at := ctx.now }) ctx.now,
         mkQueueEntry (ctx.uuid (g + 2)) .insert "stock_movements"
          (.movement { id := ctx.uuid (g + 1), item_id := itemId,
                       device_user_id := userId, user_id := userId,
                       movement_type := type, quantity := quantity,
                       entry_method := entryMethod,
                       ai_confidence := aiConfidence, notes := notes,
                       condition := condition, created_at := ctx.now }) ctx.now,
         mkQueueEntry (ctx.uuid (g + 3)) .update "inventory_items"
          (.item { ex with
                   current_quantity := if type = .add then ex.current_quantity + quantity
                     else ex.current_quantity - quantity,
                   updated_at := ctx.now }) ctx.now] ∧
    (addStockMovement remote ctx g store itemId quantity type userId
        entryMethod aiConfidence notes condition).store.sync_queue =
      store.sync_queue ++
        [mkQueueEntry (ctx.uuid (g + 1)) .insert "stock_movements"
          (.movement (addStockMovement remote ctx g store itemId quantity
            type userId entryMethod aiConfidence notes condition).ret) ctx.now] ∧
    (deleteItemMut ctx g store delId).store.sync_queue =
      store.sync_queue ++
        [mkQueueEntry (ctx.uuid g) .delete "inventory_items"
          (.idOnly delId) ctx.now] ∧
    (addUser ctx g store userName).store.sync_queue =
      store.sync_queue ++
        [mkQueueEntry (ctx.uuid (g + 1)) .insert "device_users"
          (.user (addUser ctx g store userName).ret) ctx.now] := by
  refine ⟨?_, ?_, ?_, ?_, ?_, ?_⟩
  · simp only [addItem]
    exact putById_fresh _ _ _ (fun y hy => (hNotMem y hy).2.1)
  · unfold updateItem
    rw [hEx]
    exact putById_fresh _ _ _ (fun y hy => (hNotMem y hy).1)
  · unfold updateQuantity
    rw [hEx, hOffline]
    simp only [Bool.false_eq_true, if_false]
    rw [putById_fresh _ _ _ (fun y hy => (hNotMem y hy).1)]
    rw [enqueueList_two_fresh ctx.uuid ctx.now (g + 2) _ _ _ _ _ _ _
      ?hq2 ?hq3 h23]
    · simp
    case hq2 =>
      intro y hy
      rcases List.mem_append.mp hy with hq | he
      · exact (hNotMem y hq).2.2.1
      · rw [List.mem_singleton.mp he]
        exact h02
    case hq3 =>
      intro y hy
      rcases List.mem_append.mp hy with hq | he
      · exact (hNotMem y hq).2.2.2
      · rw [List.mem_singleton.mp he]
        exact h03
  · simp only [addStockMovement, hOffline, Bool.false_eq_true, if_false]
    exact enqueueList_one_fresh _ _ _ _ _ _ _
      (fun y hy => (hNotMem y hy).2.1)
  · simp only [deleteItemMut]
    exact putById_fresh _ _ _ (fun y hy => (hNotMem y hy).1)
  · simp only [addUser]
    exact putById_fresh _ _ _ (fun y hy => (hNotMem y hy).2.1)

/-- C1 witness: the updateQuantity part of the amended statement on
the concrete offline scenario — two identical unsynced item-update
entries and one movement-insert entry are appended. -/
theorem c1_offline_queue_entries_witness :
    (updateQuantity (fun _ => CallOutcome.ok) c1Ctx 0 c1Store "i1" 2 .add
        none .manual none none none).store.sync_queue =
      c1Store.sync_queue ++
        [mkQueueEntry (Nat.repr 0) .update "inventory_items"
          (.item { c1Ex with current_quantity := 5, updated_at := "t1" }) "t1",
         mkQueueEntry (Nat.repr 2) .insert "stock_movements"
          (.movement { id := Nat.repr 1, item_id := "i1",
                       movement_type := .add, quantity := 2,
                       entry_method := .manual, created_at := "t1" }) "t1",
         mkQueueEntry (Nat.repr 3) .update "inventory_items"
          (.item { c1Ex with current_quantity := 5, updated_at := "t1" }) "t1"] :=
  (c1_offline_queue_entries (fun _ => CallOutcome.ok) c1Ctx 0 c1Store
    ⟨"n2", "S2", 1, none, none, none, none, none⟩ "i1" "i1" "alice" {}
    2 .add none .manual none none none c1Ex
    rfl (by decide) (by decide) (by decide) (by decide) (by decide)).2.2.1
